import Mathlib

/-!
# Verification of the SSReports sync pipeline

Shallow embedding of the three backend scripts of the SSReports repository
(`hourly-sync.py`, `sync-data.py`, `upload-photos-r2.py`) and proofs about
the claims of their specification.

The scripts are linear extract-transform-load routines.  We embed:

* the JSON payload parsing used to derive the `converted` / `already_betting`
  flags of a visit response (a model of Python's `json.loads` plus the
  `dict.get` attribute-error semantics of the flag derivation);
* the three per-entity sync loops of `hourly-sync.py` (insert-or-replace
  into keyed tables with a per-call success flag, success counting and
  failure logging);
* the aggregate rebuild (agent performance with the SQL `LIKE`-based
  conversion count, hourly/daily histograms) and the export-only geographic
  hotspot ranking of `sync-data.py`;
* the photo optimization fallback of `upload-photos-r2.py`.

External collaborators (the MySQL source, the D1 HTTP endpoint, PIL, the
wrangler CLI) are modelled as explicit data / oracle parameters; every
definition that corresponds to repository code is translated from that code.
-/

/-! ## JSON values and a model of Python's `json.loads`

The repository parses visit-response payloads with Python's `json.loads`.
We model JSON values as an inductive type and `json.loads` as a fuelled
recursive-descent parser of (strict) JSON text.  Numbers keep their raw
lexeme (the scripts never compare numbers, only strings, so numeric value
is irrelevant); `\uXXXX` escapes become the corresponding code point
(surrogate pairs are not combined).  As in Python, `NaN` / `Infinity` /
`-Infinity` are accepted as number lexemes, objects keep the *last* value
of a duplicated key, and trailing text after the top-level value makes the
whole parse fail.
-/

inductive Json where
  | null : Json
  | bool : Bool → Json
  | num : String → Json
  | str : String → Json
  | arr : List Json → Json
  | obj : List (String × Json) → Json

/-- Characters Python's JSON parser skips as whitespace. -/
def isJsonWs (c : Char) : Bool :=
  c = ' ' || c = '\t' || c = '\n' || c = '\r'

def skipWs : List Char → List Char
  | [] => []
  | c :: cs => if isJsonWs c then skipWs cs else c :: cs

def hexVal (c : Char) : Option Nat :=
  if '0' ≤ c ∧ c ≤ '9' then some (c.toNat - '0'.toNat)
  else if 'a' ≤ c ∧ c ≤ 'f' then some (c.toNat - 'a'.toNat + 10)
  else if 'A' ≤ c ∧ c ≤ 'F' then some (c.toNat - 'A'.toNat + 10)
  else none

def parseHex4 : List Char → Option (Nat × List Char)
  | a :: b :: c :: d :: rest => do
    let va ← hexVal a
    let vb ← hexVal b
    let vc ← hexVal c
    let vd ← hexVal d
    some (((va * 16 + vb) * 16 + vc) * 16 + vd, rest)
  | _ => none

/-- Body of a JSON string literal (after the opening quote): returns the
decoded characters and the input following the closing quote. -/
def parseStrChars : Nat → List Char → Option (List Char × List Char)
  | 0, _ => none
  | _ + 1, [] => none
  | fuel + 1, c :: cs =>
    if c = '"' then some ([], cs)
    else if c = '\\' then
      match cs with
      | [] => none
      | e :: cs' =>
        let cont := fun (ch : Char) (rest : List Char) =>
          (parseStrChars fuel rest).map (fun p => (ch :: p.1, p.2))
        if e = '"' then cont '"' cs'
        else if e = '\\' then cont '\\' cs'
        else if e = '/' then cont '/' cs'
        else if e = 'b' then cont (Char.ofNat 8) cs'
        else if e = 'f' then cont (Char.ofNat 12) cs'
        else if e = 'n' then cont '\n' cs'
        else if e = 'r' then cont (Char.ofNat 13) cs'
        else if e = 't' then cont '\t' cs'
        else if e = 'u' then
          match parseHex4 cs' with
          | some (n, rest) => cont (Char.ofNat n) rest
          | none => none
        else none
    else if c.toNat < 32 then none  -- strict mode: raw control characters are invalid
    else (parseStrChars fuel cs).map (fun p => (c :: p.1, p.2))

/-- Number lexeme: `-?(0|[1-9][0-9]*)(\.[0-9]+)?([eE][+-]?[0-9]+)?`,
plus the `NaN` / `Infinity` / `-Infinity` constants Python accepts. -/
def parseNumber (cs : List Char) : Option (String × List Char) :=
  match cs with
  | 'N' :: 'a' :: 'N' :: rest => some ("NaN", rest)
  | 'I' :: 'n' :: 'f' :: 'i' :: 'n' :: 'i' :: 't' :: 'y' :: rest => some ("Infinity", rest)
  | '-' :: 'I' :: 'n' :: 'f' :: 'i' :: 'n' :: 'i' :: 't' :: 'y' :: rest => some ("-Infinity", rest)
  | _ =>
    let (sign, cs₁) := match cs with
      | '-' :: rest => (['-'], rest)
      | _ => (([] : List Char), cs)
    match cs₁ with
    | [] => none
    | d :: rest =>
      if ¬ d.isDigit then none
      else
        let (intPart, cs₂) :=
          if d = '0' then ([d], rest)
          else
            let (ds, r) := rest.span Char.isDigit
            (d :: ds, r)
        let fracRes : Option (List Char × List Char) :=
          match cs₂ with
          | '.' :: f :: fr =>
            if f.isDigit then
              let (ds, r) := fr.span Char.isDigit
              some ('.' :: f :: ds, r)
            else none
          | '.' :: [] => none
          | _ => some ([], cs₂)
        match fracRes with
        | none => none
        | some (fracPart, cs₃) =>
          let expRes : Option (List Char × List Char) :=
            match cs₃ with
            | e :: er =>
              if e = 'e' ∨ e = 'E' then
                let (sgn, er₁) := match er with
                  | '+' :: r => (['+'], r)
                  | '-' :: r => (['-'], r)
                  | _ => (([] : List Char), er)
                match er₁ with
                | x :: xr =>
                  if x.isDigit then
                    let (ds, r) := xr.span Char.isDigit
                    some (e :: (sgn ++ (x :: ds)), r)
                  else none
                | [] => none
              else some ([], cs₃)
            | [] => some ([], cs₃)
          match expRes with
          | none => none
          | some (expPart, cs₄) =>
            some (String.mk (sign ++ intPart ++ fracPart ++ expPart), cs₄)

mutual

/-- One JSON value, leading whitespace allowed. -/
def parseValue : Nat → List Char → Option (Json × List Char)
  | 0, _ => none
  | fuel + 1, cs =>
    match skipWs cs with
    | [] => none
    | c :: rest =>
      if c = '"' then
        (parseStrChars fuel rest).map (fun p => (Json.str (String.mk p.1), p.2))
      else if c = Char.ofNat 123 then  -- opening brace
        parseMembers fuel (skipWs rest) true
      else if c = '[' then
        parseElements fuel (skipWs rest) true
      else
        match c :: rest with
        | 't' :: 'r' :: 'u' :: 'e' :: r => some (Json.bool true, r)
        | 'f' :: 'a' :: 'l' :: 's' :: 'e' :: r => some (Json.bool false, r)
        | 'n' :: 'u' :: 'l' :: 'l' :: r => some (Json.null, r)
        | l => (parseNumber l).map (fun p => (Json.num p.1, p.2))

/-- Members of an object, after the opening brace (and leading whitespace).
`first` is true when no member has been consumed yet, so that a closing
brace is only accepted for the empty object or right after a member. -/
def parseMembers : Nat → List Char → Bool → Option (Json × List Char)
  | 0, _, _ => none
  | fuel + 1, cs, first =>
    match cs with
    | [] => none
    | c :: rest =>
      if first ∧ c = Char.ofNat 125 then  -- closing brace: empty object
        some (Json.obj [], rest)
      else
        if c = '"' then
          match parseStrChars fuel rest with
          | none => none
          | some (keyChars, afterKey) =>
            match skipWs afterKey with
            | ':' :: afterColon =>
              match parseValue fuel afterColon with
              | none => none
              | some (v, afterVal) =>
                match skipWs afterVal with
                | ',' :: afterComma =>
                  match parseMembers fuel (skipWs afterComma) false with
                  | some (Json.obj kvs, r) => some (Json.obj ((String.mk keyChars, v) :: kvs), r)
                  | _ => none
                | d :: afterBrace =>
                  if d = Char.ofNat 125 then
                    some (Json.obj [(String.mk keyChars, v)], afterBrace)
                  else none
                | [] => none
            | _ => none
        else none

/-- Elements of an array, after the opening bracket (and leading whitespace). -/
def parseElements : Nat → List Char → Bool → Option (Json × List Char)
  | 0, _, _ => none
  | fuel + 1, cs, first =>
    match cs with
    | [] => none
    | c :: rest =>
      if first ∧ c = ']' then
        some (Json.arr [], rest)
      else
        match parseValue fuel (c :: rest) with
        | none => none
        | some (v, afterVal) =>
          match skipWs afterVal with
          | ',' :: afterComma =>
            match parseElements fuel (skipWs afterComma) false with
            | some (Json.arr vs, r) => some (Json.arr (v :: vs), r)
            | _ => none
          | ']' :: afterBracket => some (Json.arr [v], afterBracket)
          | _ => none

end

/-- Model of Python's `json.loads`: the whole input must be one JSON value
(surrounded by optional whitespace); `none` models a raised exception. -/
def json_loads (s : String) : Option Json :=
  match parseValue (s.length + 2) s.data with
  | none => none
  | some (v, rest) =>
    match skipWs rest with
    | [] => some v
    | _ => none

/-! ## The derived visit-response flags

`hourly-sync.py` lines 144–150 and `sync-data.py` lines 66–72 (identical
code): parse the payload, then

* `converted = 1 if data.get('conversion', {}).get('converted') == 'yes' else 0`
* `betting = 1 if data.get('bettingInfo', {}).get('isBettingSomewhere') == 'yes' else 0`

inside one `try:`, with a bare `except:` setting both flags to `0`.
`dict.get` exists only on objects: applied to any other value it raises
`AttributeError`, which the `except` also catches.  A missing key yields
the supplied default (`{}` for the outer calls) or `None` (the inner
calls), and `None`, numbers, booleans … are all `≠ 'yes'`.
-/

/-- Last-wins lookup in an object's key/value list (Python `dict` keeps the
last value of a duplicated key, so lookup takes the last occurrence). -/
def jsonObjGetD (kvs : List (String × Json)) (k : String) (d : Json) : Json :=
  match kvs.reverse.find? (fun p => p.1 == k) with
  | some p => p.2
  | none => d

/-- Python `value.get(key, default)`: succeeds only on objects (`dict`s),
any other receiver raises `AttributeError` (modelled as `.error ()`). -/
def pyGetD (j : Json) (k : String) (d : Json) : Except Unit Json :=
  match j with
  | .obj kvs => .ok (jsonObjGetD kvs k d)
  | _ => .error ()

/-- `v == 'yes'` for a JSON value held in a Python variable. -/
def isYesStr : Json → Bool
  | .str s => s == "yes"
  | _ => false

/-- The body of the `try:` block of the flag derivation; `.error ()` models
any raised exception (parse failure or `AttributeError`). -/
def computeFlags (s : String) : Except Unit (Nat × Nat) :=
  match json_loads s with
  | none => .error ()
  | some data =>
    match pyGetD data "conversion" (Json.obj []) with
    | .error _ => .error ()
    | .ok conv =>
      match pyGetD conv "converted" Json.null with
      | .error _ => .error ()
      | .ok cv =>
        let converted : Nat := if isYesStr cv then 1 else 0
        match pyGetD data "bettingInfo" (Json.obj []) with
        | .error _ => .error ()
        | .ok bi =>
          match pyGetD bi "isBettingSomewhere" Json.null with
          | .error _ => .error ()
          | .ok bv => .ok (converted, if isYesStr bv then 1 else 0)

/-- The `(converted, already_betting)` pair actually stored for a payload:
the `try:` body's result, or `(0, 0)` when it raised. -/
def deriveFlags (s : String) : Nat × Nat :=
  match computeFlags s with
  | .ok p => p
  | .error _ => (0, 0)

/-- The specification's reading of the `converted` flag: the payload parses
and the value at `conversion.converted` (plain nested lookup, missing keys
and non-object values giving the default) is the string `'yes'`.  This
definition follows the spec's words, for comparison with `deriveFlags`. -/
def specConvertedFlag (s : String) : Nat :=
  match json_loads s with
  | none => 0
  | some j =>
    let conv := match j with
      | .obj kvs => jsonObjGetD kvs "conversion" (Json.obj [])
      | _ => Json.obj []
    let cv := match conv with
      | .obj kvs => jsonObjGetD kvs "converted" Json.null
      | _ => Json.null
    if isYesStr cv then 1 else 0

/-- The specification's reading of the `already_betting` flag, analogous to
`specConvertedFlag` with `bettingInfo.isBettingSomewhere`. -/
def specBettingFlag (s : String) : Nat :=
  match json_loads s with
  | none => 0
  | some j =>
    let bi := match j with
      | .obj kvs => jsonObjGetD kvs "bettingInfo" (Json.obj [])
      | _ => Json.obj []
    let bv := match bi with
      | .obj kvs => jsonObjGetD kvs "isBettingSomewhere" Json.null
      | _ => Json.null
    if isYesStr bv then 1 else 0

/-! ## Source entities

Rows as read from the MySQL source (`SELECT` column lists of the scripts).
Timestamps are modelled as natural numbers: the scripts compare the
`timestamp` / `created_at` column against a cutoff string of the same
fixed format, which is order-isomorphic to a numeric encoding.
Geo-coordinates are modelled as rationals (only compared, never computed
with); nullable columns are `Option`s (`pandas` `NaN` ↦ `none`, matching
the scripts' `None if pd.isna(p) else p` normalization).
-/

structure Checkin where
  id : Int
  agent_id : Int
  shop_id : Int
  timestamp : Nat
  latitude : Rat
  longitude : Rat
  photo_path : Option String
  notes : Option String
  status : Option String
  brand_id : Option Int
  category_id : Option Int
  product_id : Option Int
deriving DecidableEq

structure VisitResponse where
  id : Int
  checkin_id : Int
  visit_type : Option String
  responses : String
  created_at : Nat
deriving DecidableEq

structure Shop where
  id : Int
  name : Option String
  address : Option String
  latitude : Rat
  longitude : Rat
deriving DecidableEq

structure User where
  id : Int
  name : String
deriving DecidableEq

structure SourceDB where
  checkins : List Checkin
  visit_responses : List VisitResponse
  shops : List Shop
  users : List User
deriving DecidableEq

/-- The destination `visit_responses` row: the source columns plus the two
derived flags persisted alongside them (`hourly-sync.py` lines 152–160). -/
structure VisitResponseRow where
  id : Int
  checkin_id : Int
  visit_type : Option String
  responses : String
  converted : Nat
  already_betting : Nat
  created_at : Nat
deriving DecidableEq

def mkVisitResponseRow (v : VisitResponse) : VisitResponseRow :=
  { id := v.id, checkin_id := v.checkin_id, visit_type := v.visit_type,
    responses := v.responses, converted := (deriveFlags v.responses).1,
    already_betting := (deriveFlags v.responses).2, created_at := v.created_at }

/-! ## The Remote Query Client and the per-row upsert loops

`execute_d1_query` posts one statement and yields a JSON response; the
scripts only inspect `result.get('success')` and log the raw response on
failure.  We model the response as a success flag plus an opaque body, and
the remote endpoint as an oracle assigning a response to each row.  A D1
table is an association list keyed by the row's primary identifier;
`INSERT OR REPLACE` removes any row with the same key and appends the new
one.
-/

structure D1Response where
  success : Bool
  body : String
deriving DecidableEq

/-- `INSERT OR REPLACE`: delete any existing row with key `k`, insert the
new row. -/
def upsertRow {α : Type} (t : List (Int × α)) (k : Int) (v : α) : List (Int × α) :=
  t.filter (fun p => p.1 != k) ++ [(k, v)]

/-- State threaded through one sync function: the destination table, the
per-row failure log (row identifier and raw response), and the success
counter. -/
structure LoopState (α : Type) where
  table : List (Int × α)
  logged : List (Int × D1Response)
  count : Nat
deriving DecidableEq

/-- The shared per-row upsert loop shape of the three sync functions:
upsert each row, `count += 1` on `success`, otherwise continue with the
next row.  `doLog` records whether the source loop has a failure log call:
the check-in and visit-response loops log `(row id, raw response)`
(`hourly-sync.py` lines 116 and 167), the shop loop has no such call
(lines 204–206). -/
def runUpsertLoop {ρ α : Type} (key : ρ → Int) (mk : ρ → α) (resp : ρ → D1Response)
    (doLog : Bool) : List ρ → LoopState α → LoopState α
  | [], st => st
  | r :: rs, st =>
    let res := resp r
    if res.success then
      runUpsertLoop key mk resp doLog rs
        { table := upsertRow st.table (key r) (mk r), logged := st.logged,
          count := st.count + 1 }
    else
      runUpsertLoop key mk resp doLog rs
        { table := st.table,
          logged := if doLog then st.logged ++ [(key r, res)] else st.logged,
          count := st.count }

/-- `sync_new_checkins`: select check-ins with `timestamp >= cutoff`,
short-circuit when there are none, otherwise upsert row by row. -/
def sync_new_checkins (resp : Checkin → D1Response) (src : List Checkin) (cutoff : Nat)
    (dest : List (Int × Checkin)) : LoopState Checkin :=
  let candidates := src.filter (fun c => decide (cutoff ≤ c.timestamp))
  if candidates.isEmpty then { table := dest, logged := [], count := 0 }
  else runUpsertLoop (fun c => c.id) (fun c => c) resp true candidates
    { table := dest, logged := [], count := 0 }

/-- `sync_new_visit_responses`: select responses with `created_at >= cutoff`,
derive the two flags per row, upsert row by row. -/
def sync_new_visit_responses (resp : VisitResponse → D1Response) (src : List VisitResponse)
    (cutoff : Nat) (dest : List (Int × VisitResponseRow)) : LoopState VisitResponseRow :=
  let candidates := src.filter (fun v => decide (cutoff ≤ v.created_at))
  if candidates.isEmpty then { table := dest, logged := [], count := 0 }
  else runUpsertLoop (fun v => v.id) mkVisitResponseRow resp true candidates
    { table := dest, logged := [], count := 0 }

/-- The response of the `SELECT id FROM shops` read against D1, as the shop
sync inspects it: a success flag and a list of result objects, each with
its own `results` list of ids. -/
structure D1ShopsRead where
  success : Bool
  result : List (List Int)
deriving DecidableEq

/-- `hourly-sync.py` lines 182–186: start from the empty set; when the call
succeeded and the result list is non-empty (Python truthiness), each result
object with a non-empty `results` list *overwrites* (`existing_ids = {...}`,
not a union) the set of existing ids. -/
def existingShopIds (r : D1ShopsRead) : List Int :=
  if r.success && !r.result.isEmpty then
    r.result.foldl (fun acc ids => if ids.isEmpty then acc else ids) []
  else []

/-- `sync_new_shops`: read all source shops, set-subtract the ids reported
by the destination read, short-circuit when nothing is new, otherwise
upsert row by row (with no failure logging, unlike the other two loops). -/
def sync_new_shops (resp : Shop → D1Response) (src : List Shop) (read : D1ShopsRead)
    (dest : List (Int × Shop)) : LoopState Shop :=
  let existing := existingShopIds read
  let new_shops := src.filter (fun s => !(existing.contains s.id))
  if new_shops.isEmpty then { table := dest, logged := [], count := 0 }
  else runUpsertLoop (fun s => s.id) (fun s => s) resp false new_shops
    { table := dest, logged := [], count := 0 }

/-! ## The aggregate rebuild

`update_aggregates` of `hourly-sync.py` (lines 211–279); `export_data` of
`sync-data.py` computes the same agent-performance, hourly and daily tables
(lines 84–130) plus the geographic hotspots (lines 132–144).  The SQL
aggregation queries are modelled as list computations over the source
tables.  `ORDER BY` clauses are modelled with a stable insertion sort
(ties are unspecified in SQL); `GROUP BY` enumerates the distinct keys.
-/

/-- The conversion predicate of the aggregation query — a raw substring
test, `vr.responses LIKE '%"converted": "yes"%' OR
vr.responses LIKE '%"converted":"yes"%'` — and *not* the JSON-parse rule
of the per-row flags. -/
def likeConvertedYes (s : String) : Bool :=
  decide (List.IsInfix ("\"converted\": \"yes\"").data s.data) ||
  decide (List.IsInfix ("\"converted\":\"yes\"").data s.data)

/-- `conversions_df`: `COUNT(*)` over the join of check-ins and
`LIKE`-matching visit responses, grouped by agent — i.e. the number of
(check-in, response) pairs of the agent whose payload matches. -/
def convCount (cs : List Checkin) (vrs : List VisitResponse) (a : Int) : Nat :=
  ((cs.filter (fun c => c.agent_id == a)).flatMap
    (fun c => vrs.filter (fun v => v.checkin_id == c.id && likeConvertedYes v.responses))).length

/-- The specification's description of an agent's conversions: the number
of the agent's check-ins having a visit response whose derived `converted`
flag is 1.  This definition follows the spec's words, for comparison with
`convCount`. -/
def specAgentConversions (cs : List Checkin) (vrs : List VisitResponse) (a : Int) : Nat :=
  ((cs.filter (fun c => c.agent_id == a)).filter
    (fun c => vrs.any (fun v => v.checkin_id == c.id && (deriveFlags v.responses).1 == 1))).length

/-- `LEFT JOIN users u ON c.agent_id = u.id`: each check-in paired with the
name of every matching user, or with `NULL` when no user matches. -/
def joinRows (cs : List Checkin) (users : List User) : List (Checkin × Option String) :=
  cs.flatMap (fun c =>
    match users.filter (fun u => u.id == c.agent_id) with
    | [] => [(c, none)]
    | us => us.map (fun u => (c, some u.name)))

/-- Round `n / d` to the nearest integer, ties to even (the rounding of
Python's `round` and pandas' `.round`, here on exact rationals rather than
binary floats); `d = 0` yields 0. -/
def roundHalfEvenDiv (n d : Nat) : Nat :=
  if d = 0 then 0
  else
    let q := n / d
    let r := n % d
    if 2 * r < d then q
    else if d < 2 * r then q + 1
    else if q % 2 = 0 then q else q + 1

/-- `round(conversions / checkin_count * 100, 2)` as an exact rational:
`conversions / checkin_count * 100` rounded to hundredths. -/
def conversionRate (conversions checkin_count : Nat) : Rat :=
  mkRat (roundHalfEvenDiv (conversions * 10000) checkin_count) 100

structure AgentPerfRow where
  agent_id : Int
  agent_name : Option String
  checkin_count : Nat
  conversions : Nat
  conversion_rate : Rat
deriving DecidableEq

/-- The agent-performance table: `GROUP BY c.agent_id, u.name` over the
left join with counts, merged (left, on `agent_id`) with the conversion
counts, missing conversions filled with 0, and the rate computed per row.
(`ORDER BY checkin_count DESC` only affects presentation order and is not
modelled; `GROUP BY` output order is unspecified in SQL.) -/
def agentPerfRows (cs : List Checkin) (users : List User) (vrs : List VisitResponse) :
    List AgentPerfRow :=
  let rows := joinRows cs users
  ((rows.map (fun rc => (rc.1.agent_id, rc.2))).dedup).map (fun k =>
    let cnt := (rows.filter (fun rc => rc.1.agent_id == k.1 && rc.2 == k.2)).length
    let conv := convCount cs vrs k.1
    { agent_id := k.1, agent_name := k.2, checkin_count := cnt, conversions := conv,
      conversion_rate := conversionRate conv cnt })

/-- `HOUR(timestamp)` on an epoch-seconds timestamp. -/
def hourOf (t : Nat) : Nat := t % 86400 / 3600

/-- `DAYOFWEEK(timestamp)` (1 = Sunday … 7 = Saturday) on an epoch-seconds
timestamp (day 0 of the epoch is a Thursday). -/
def dayNumOf (t : Nat) : Nat := (t / 86400 + 4) % 7 + 1

/-- `DAYNAME(timestamp)` in terms of `DAYOFWEEK`. -/
def dayNameOf (n : Nat) : String :=
  if n = 1 then "Sunday" else if n = 2 then "Monday" else if n = 3 then "Tuesday"
  else if n = 4 then "Wednesday" else if n = 5 then "Thursday"
  else if n = 6 then "Friday" else "Saturday"

/-- `SELECT HOUR(timestamp), COUNT(*) … GROUP BY HOUR(timestamp) ORDER BY hour`. -/
def hourlyRows (cs : List Checkin) : List (Nat × Nat) :=
  (List.insertionSort (fun a b => a ≤ b) (cs.map (fun c => hourOf c.timestamp)).dedup).map
    (fun h => (h, (cs.filter (fun c => hourOf c.timestamp == h)).length))

/-- `SELECT DAYOFWEEK(timestamp), DAYNAME(timestamp), COUNT(*) … GROUP BY … ORDER BY day_num`. -/
def dailyRows (cs : List Checkin) : List (Nat × String × Nat) :=
  (List.insertionSort (fun a b => a ≤ b) (cs.map (fun c => dayNumOf c.timestamp)).dedup).map
    (fun d => (d, dayNameOf d, (cs.filter (fun c => dayNumOf c.timestamp == d)).length))

/-- The `WHERE latitude != 0 AND longitude != 0` filter of the hotspot
query: a row passes when *both* coordinates are nonzero. -/
def geoEligible (cs : List Checkin) : List Checkin :=
  cs.filter (fun c => c.latitude != 0 && c.longitude != 0)

/-- The distinct coordinate pairs eligible for the hotspot ranking. -/
def geoPoints (cs : List Checkin) : List (Rat × Rat) :=
  ((geoEligible cs).map (fun c => (c.latitude, c.longitude))).dedup

/-- `sync-data.py` lines 133–140: group the eligible rows by coordinate
pair, `ORDER BY count DESC LIMIT 100`. -/
def geoHotspotRows (cs : List Checkin) : List ((Rat × Rat) × Nat) :=
  (List.insertionSort (fun a b => b.2 ≤ a.2)
    ((geoPoints cs).map (fun p =>
      (p, ((geoEligible cs).filter
            (fun c => c.latitude == p.1 && c.longitude == p.2)).length)))).take 100

/-! ## The destination database and the hourly cycle

The destination (D1) state: the three mirrored tables and the three
derived tables `update_aggregates` rebuilds.  The rebuild deletes every
row of a derived table and re-inserts the freshly aggregated rows; the
scripts do not inspect the results of those calls, so the rebuild is
modelled as the resulting replacement. -/

structure DestDB where
  checkins : List (Int × Checkin)
  visit_responses : List (Int × VisitResponseRow)
  shops : List (Int × Shop)
  agent_performance : List AgentPerfRow
  checkins_by_hour : List (Nat × Nat)
  checkins_by_day : List (Nat × String × Nat)
deriving DecidableEq

/-- `update_aggregates`: fully replace the three derived tables with fresh
aggregations of the source. -/
def update_aggregates (src : SourceDB) (d : DestDB) : DestDB :=
  { d with
    agent_performance := agentPerfRows src.checkins src.users src.visit_responses,
    checkins_by_hour := hourlyRows src.checkins,
    checkins_by_day := dailyRows src.checkins }

/-- The remote-call oracles of one cycle: the per-row upsert responses and
the success of the `SELECT id FROM shops` read. -/
structure SyncOracles where
  checkinResp : Checkin → D1Response
  vrResp : VisitResponse → D1Response
  shopResp : Shop → D1Response
  shopReadOk : Bool

structure MainResult where
  dest : DestDB
  checkinsCount : Nat
  responsesCount : Nat
  shopsCount : Nat
  rebuilt : Bool

/-- The sync portion of `main` (`hourly-sync.py` lines 289–295): the three
entity syncs in order, then `update_aggregates` exactly when
`checkins_count > 0 or responses_count > 0`.  The shop sync's read of
existing ids sees the current destination's shop table (one result object
listing its ids) when the read succeeds. -/
def mainCycle (o : SyncOracles) (src : SourceDB) (cutoffC cutoffR : Nat) (d : DestDB) :
    MainResult :=
  let rc := sync_new_checkins o.checkinResp src.checkins cutoffC d.checkins
  let rr := sync_new_visit_responses o.vrResp src.visit_responses cutoffR d.visit_responses
  let shopRead : D1ShopsRead := { success := o.shopReadOk, result := [d.shops.map (fun p => p.1)] }
  let rs := sync_new_shops o.shopResp src.shops shopRead d.shops
  let d1 : DestDB := { d with checkins := rc.table, visit_responses := rr.table, shops := rs.table }
  let rebuilt := decide (0 < rc.count) || decide (0 < rr.count)
  { dest := if rebuilt then update_aggregates src d1 else d1,
    checkinsCount := rc.count, responsesCount := rr.count, shopsCount := rs.count,
    rebuilt := rebuilt }

/-! ## The photo migration job

`upload-photos-r2.py`.  PIL (`Image.open` … `img.save`) and the wrangler
CLI are external collaborators, modelled as oracles: `pil` maps the input
bytes to the optimized bytes or to a raised exception, `runPut` gives the
exit code of the upload command for a key and the uploaded bytes.  Bytes
are modelled as lists of naturals. -/

structure PhotoEnv where
  pil : List Nat → Except String (List Nat)
  runPut : Int → List Nat → Int

/-- `optimize_photo`: return the optimized bytes, or the original bytes
unchanged when optimization raised (`except` block, lines 51–53). -/
def optimize_photo (env : PhotoEnv) (photoBytes : List Nat) : List Nat :=
  match env.pil photoBytes with
  | .ok out => out
  | .error _ => photoBytes

/-- `upload_to_r2`: optionally optimize, then upload; the result is the
success of the upload command (`returncode == 0`) on the bytes actually
written to the temp file. -/
def upload_to_r2 (env : PhotoEnv) (checkin_id : Int) (photoBytes : List Nat)
    (optimize : Bool := true) : Bool :=
  let bytes := if optimize then optimize_photo env photoBytes else photoBytes
  env.runPut checkin_id bytes == 0

/-! ## Helper lemmas: loop characterizations and upsert algebra -/

/-- All successful upserts of a batch, in order. -/
def upsertAll {ρ α : Type} (key : ρ → Int) (mk : ρ → α) (rows : List ρ)
    (t : List (Int × α)) : List (Int × α) :=
  rows.foldl (fun acc r => upsertRow acc (key r) (mk r)) t

theorem runUpsertLoop_table {ρ α : Type} (key : ρ → Int) (mk : ρ → α)
    (resp : ρ → D1Response) (doLog : Bool) (rows : List ρ) (st : LoopState α) :
    (runUpsertLoop key mk resp doLog rows st).table
      = upsertAll key mk (rows.filter (fun r => (resp r).success)) st.table := by
  induction rows generalizing st with
  | nil => simp [runUpsertLoop, upsertAll]
  | cons r rs ih =>
    by_cases h : (resp r).success
    · simp [runUpsertLoop, h, ih, upsertAll]
    · simp [runUpsertLoop, h, ih, upsertAll]

theorem runUpsertLoop_count {ρ α : Type} (key : ρ → Int) (mk : ρ → α)
    (resp : ρ → D1Response) (doLog : Bool) (rows : List ρ) (st : LoopState α) :
    (runUpsertLoop key mk resp doLog rows st).count
      = st.count + (rows.filter (fun r => (resp r).success)).length := by
  induction rows generalizing st with
  | nil => simp [runUpsertLoop]
  | cons r rs ih =>
    by_cases h : (resp r).success
    · simp [runUpsertLoop, h, ih]; omega
    · simp [runUpsertLoop, h, ih]

theorem runUpsertLoop_logged_log {ρ α : Type} (key : ρ → Int) (mk : ρ → α)
    (resp : ρ → D1Response) (rows : List ρ) (st : LoopState α) :
    (runUpsertLoop key mk resp true rows st).logged
      = st.logged ++ (rows.filter (fun r => !(resp r).success)).map (fun r => (key r, resp r)) := by
  induction rows generalizing st with
  | nil => simp [runUpsertLoop]
  | cons r rs ih =>
    by_cases h : (resp r).success
    · simp [runUpsertLoop, h, ih]
    · simp [runUpsertLoop, h, ih]

theorem runUpsertLoop_logged_nolog {ρ α : Type} (key : ρ → Int) (mk : ρ → α)
    (resp : ρ → D1Response) (rows : List ρ) (st : LoopState α) :
    (runUpsertLoop key mk resp false rows st).logged = st.logged := by
  induction rows generalizing st with
  | nil => simp [runUpsertLoop]
  | cons r rs ih =>
    by_cases h : (resp r).success
    · simp [runUpsertLoop, h, ih]
    · simp [runUpsertLoop, h, ih]

/-- The short-circuit on an empty candidate list agrees with running the
loop on it, so the `if` can be erased. -/
theorem sync_new_checkins_eq_loop (resp : Checkin → D1Response) (src : List Checkin)
    (cutoff : Nat) (dest : List (Int × Checkin)) :
    sync_new_checkins resp src cutoff dest
      = runUpsertLoop (fun c => c.id) (fun c => c) resp true
          (src.filter (fun c => decide (cutoff ≤ c.timestamp)))
          { table := dest, logged := [], count := 0 } := by
  unfold sync_new_checkins
  by_cases h : (src.filter (fun c => decide (cutoff ≤ c.timestamp))).isEmpty
  · rw [List.isEmpty_iff] at h
    simp [h, runUpsertLoop]
  · simp [h]

theorem sync_new_visit_responses_eq_loop (resp : VisitResponse → D1Response)
    (src : List VisitResponse) (cutoff : Nat) (dest : List (Int × VisitResponseRow)) :
    sync_new_visit_responses resp src cutoff dest
      = runUpsertLoop (fun v => v.id) mkVisitResponseRow resp true
          (src.filter (fun v => decide (cutoff ≤ v.created_at)))
          { table := dest, logged := [], count := 0 } := by
  unfold sync_new_visit_responses
  by_cases h : (src.filter (fun v => decide (cutoff ≤ v.created_at))).isEmpty
  · rw [List.isEmpty_iff] at h
    simp [h, runUpsertLoop]
  · simp [h]

theorem sync_new_shops_eq_loop (resp : Shop → D1Response) (src : List Shop)
    (read : D1ShopsRead) (dest : List (Int × Shop)) :
    sync_new_shops resp src read dest
      = runUpsertLoop (fun s => s.id) (fun s => s) resp false
          (src.filter (fun s => !((existingShopIds read).contains s.id)))
          { table := dest, logged := [], count := 0 } := by
  simp only [sync_new_shops]
  by_cases h : (src.filter (fun s => !((existingShopIds read).contains s.id))).isEmpty
  · rw [if_pos h]
    rw [List.isEmpty_iff] at h
    rw [h]
    rfl
  · rw [if_neg h]

/-- When the keys of a batch are distinct, upserting it equals deleting all
its keys and appending the batch's rows. -/
theorem upsertAll_eq_filter_append {ρ α : Type} (key : ρ → Int) (mk : ρ → α)
    (rows : List ρ) (t : List (Int × α)) (h : (rows.map key).Nodup) :
    upsertAll key mk rows t
      = t.filter (fun p => decide (p.1 ∉ rows.map key))
          ++ rows.map (fun r => (key r, mk r)) := by
  induction rows generalizing t with
  | nil => simp [upsertAll]
  | cons r rs ih =>
    simp only [List.map_cons, List.nodup_cons] at h
    have hni : key r ∉ rs.map key := h.1
    have step : upsertAll key mk (r :: rs) t
        = upsertAll key mk rs (upsertRow t (key r) (mk r)) := rfl
    rw [step, ih _ h.2, upsertRow]
    rw [List.filter_append, List.filter_filter]
    have hsingle : List.filter (fun p => decide (p.1 ∉ rs.map key)) [(key r, mk r)]
        = [(key r, mk r)] := by
      simp [List.filter, hni]
    rw [hsingle]
    have hpred : ∀ p : Int × α, (p ∈ t) →
        (decide (p.1 ∉ rs.map key) && (p.1 != key r))
          = decide (p.1 ∉ key r :: rs.map key) := by
      intro p _
      simp only [bne, beq_eq_decide, ← decide_not, ← Bool.decide_and]
      rw [decide_eq_decide]
      simp [not_or]
      tauto
    simp only [List.map_cons]
    rw [List.append_assoc]
    congr 1
    apply List.filter_congr
    exact hpred

/-- Upserting a key-distinct batch is idempotent on the table. -/
theorem upsertAll_idem {ρ α : Type} (key : ρ → Int) (mk : ρ → α)
    (rows : List ρ) (t : List (Int × α)) (h : (rows.map key).Nodup) :
    upsertAll key mk rows (upsertAll key mk rows t) = upsertAll key mk rows t := by
  rw [upsertAll_eq_filter_append key mk rows t h,
      upsertAll_eq_filter_append key mk rows _ h]
  rw [List.filter_append, List.filter_filter]
  have h1 : List.filter
      (fun p : Int × α => decide (p.1 ∉ rows.map key) && decide (p.1 ∉ rows.map key))
      t = t.filter (fun p => decide (p.1 ∉ rows.map key)) := by
    apply List.filter_congr
    intro p _
    rw [Bool.and_self]
  have h2 : List.filter (fun p : Int × α => decide (p.1 ∉ rows.map key))
      (rows.map (fun r => (key r, mk r))) = [] := by
    rw [List.filter_eq_nil_iff]
    intro p hp
    simp only [List.mem_map] at hp
    obtain ⟨r, hr, rfl⟩ := hp
    simp only [decide_eq_true_eq, Decidable.not_not, List.mem_map, not_not]
    exact ⟨r, hr, rfl⟩
  rw [h1, h2, List.append_nil]

theorem sync_new_checkins_count (resp : Checkin → D1Response) (src : List Checkin)
    (cutoff : Nat) (dest : List (Int × Checkin)) :
    (sync_new_checkins resp src cutoff dest).count
      = ((src.filter (fun c => decide (cutoff ≤ c.timestamp))).filter
          (fun c => (resp c).success)).length := by
  rw [sync_new_checkins_eq_loop, runUpsertLoop_count]
  simp

theorem sync_new_visit_responses_count (resp : VisitResponse → D1Response)
    (src : List VisitResponse) (cutoff : Nat) (dest : List (Int × VisitResponseRow)) :
    (sync_new_visit_responses resp src cutoff dest).count
      = ((src.filter (fun v => decide (cutoff ≤ v.created_at))).filter
          (fun v => (resp v).success)).length := by
  rw [sync_new_visit_responses_eq_loop, runUpsertLoop_count]
  simp

theorem sync_new_shops_count (resp : Shop → D1Response) (src : List Shop)
    (read : D1ShopsRead) (dest : List (Int × Shop)) :
    (sync_new_shops resp src read dest).count
      = ((src.filter (fun s => !((existingShopIds read).contains s.id))).filter
          (fun s => (resp s).success)).length := by
  rw [sync_new_shops_eq_loop, runUpsertLoop_count]
  simp

/-- With all upsert calls succeeding, the table after a check-in sync is
the upsert of the whole candidate batch. -/
theorem sync_new_checkins_table_ok (resp : Checkin → D1Response) (src : List Checkin)
    (cutoff : Nat) (dest : List (Int × Checkin)) (hok : ∀ c, (resp c).success = true) :
    (sync_new_checkins resp src cutoff dest).table
      = upsertAll (fun c => c.id) (fun c => c)
          (src.filter (fun c => decide (cutoff ≤ c.timestamp))) dest := by
  rw [sync_new_checkins_eq_loop, runUpsertLoop_table,
    List.filter_eq_self.mpr (fun c _ => hok c)]

theorem sync_new_visit_responses_table_ok (resp : VisitResponse → D1Response)
    (src : List VisitResponse) (cutoff : Nat) (dest : List (Int × VisitResponseRow))
    (hok : ∀ v, (resp v).success = true) :
    (sync_new_visit_responses resp src cutoff dest).table
      = upsertAll (fun v => v.id) mkVisitResponseRow
          (src.filter (fun v => decide (cutoff ≤ v.created_at))) dest := by
  rw [sync_new_visit_responses_eq_loop, runUpsertLoop_table,
    List.filter_eq_self.mpr (fun v _ => hok v)]

/-- The shop-id read built from a destination table reports exactly that
table's keys. -/
theorem existingShopIds_single (l : List Int) :
    existingShopIds { success := true, result := [l] } = l := by
  cases l <;> rfl

/-- With a successful read of the destination's own keys, distinct source
ids and all upserts succeeding, the shop sync leaves the destination rows
in place and appends exactly the shops whose id is not yet present. -/
theorem sync_new_shops_table_ok (resp : Shop → D1Response) (src : List Shop)
    (dest : List (Int × Shop)) (hok : ∀ s, (resp s).success = true)
    (hsrc : (src.map (fun s => s.id)).Nodup) :
    (sync_new_shops resp src { success := true, result := [dest.map (fun p => p.1)] } dest).table
      = dest ++ (src.filter
          (fun s => !((dest.map (fun p => p.1)).contains s.id))).map (fun s => (s.id, s)) := by
  rw [sync_new_shops_eq_loop, runUpsertLoop_table, existingShopIds_single,
    List.filter_eq_self.mpr (fun s _ => hok s)]
  have hnodup : ((src.filter
      (fun s => !((dest.map (fun p => p.1)).contains s.id))).map (fun s => s.id)).Nodup := by
    have hsub : List.Sublist
        ((src.filter (fun s => !((dest.map (fun p => p.1)).contains s.id))).map
          (fun s => s.id))
        (src.map (fun s => s.id)) :=
      List.Sublist.map (fun s => s.id) (List.filter_sublist src)
    exact hsrc.sublist hsub
  rw [upsertAll_eq_filter_append _ _ _ _ hnodup]
  have hkeep : dest.filter (fun p => decide (p.1 ∉ (src.filter
      (fun s => !((dest.map (fun q => q.1)).contains s.id))).map (fun s => s.id))) = dest := by
    apply List.filter_eq_self.mpr
    intro p hp
    simp only [decide_eq_true_eq, List.mem_map, List.mem_filter, Bool.not_eq_true',
      not_exists, not_and]
    rintro s ⟨hs, hcon⟩ hid
    have hpmem : p.1 ∈ dest.map (fun q => q.1) := List.mem_map.mpr ⟨p, hp, rfl⟩
    rw [hid] at hcon
    rw [List.contains, List.elem_eq_mem] at hcon
    simp only [decide_eq_false_iff_not] at hcon
    exact hcon hpmem
  rw [hkeep]

/-- Projections of `mainCycle` (definitional unfoldings). -/
theorem mainCycle_checkinsCount (o : SyncOracles) (src : SourceDB) (cutC cutR : Nat)
    (d : DestDB) : (mainCycle o src cutC cutR d).checkinsCount
      = (sync_new_checkins o.checkinResp src.checkins cutC d.checkins).count := rfl

theorem mainCycle_responsesCount (o : SyncOracles) (src : SourceDB) (cutC cutR : Nat)
    (d : DestDB) : (mainCycle o src cutC cutR d).responsesCount
      = (sync_new_visit_responses o.vrResp src.visit_responses cutR d.visit_responses).count := rfl

theorem mainCycle_rebuilt (o : SyncOracles) (src : SourceDB) (cutC cutR : Nat)
    (d : DestDB) : (mainCycle o src cutC cutR d).rebuilt
      = (decide (0 < (sync_new_checkins o.checkinResp src.checkins cutC d.checkins).count)
          || decide (0 < (sync_new_visit_responses o.vrResp
                src.visit_responses cutR d.visit_responses).count)) := rfl

theorem mainCycle_dest (o : SyncOracles) (src : SourceDB) (cutC cutR : Nat) (d : DestDB) :
    (mainCycle o src cutC cutR d).dest
      = (if (decide (0 < (sync_new_checkins o.checkinResp src.checkins cutC d.checkins).count)
            || decide (0 < (sync_new_visit_responses o.vrResp
                  src.visit_responses cutR d.visit_responses).count))
         then update_aggregates src
            { d with
              checkins := (sync_new_checkins o.checkinResp src.checkins cutC d.checkins).table,
              visit_responses := (sync_new_visit_responses o.vrResp
                src.visit_responses cutR d.visit_responses).table,
              shops := (sync_new_shops o.shopResp src.shops
                { success := o.shopReadOk, result := [d.shops.map (fun p => p.1)] }
                d.shops).table }
         else
            { d with
              checkins := (sync_new_checkins o.checkinResp src.checkins cutC d.checkins).table,
              visit_responses := (sync_new_visit_responses o.vrResp
                src.visit_responses cutR d.visit_responses).table,
              shops := (sync_new_shops o.shopResp src.shops
                { success := o.shopReadOk, result := [d.shops.map (fun p => p.1)] }
                d.shops).table }) := rfl

theorem mainCycle_dest_checkins (o : SyncOracles) (src : SourceDB) (cutC cutR : Nat)
    (d : DestDB) : (mainCycle o src cutC cutR d).dest.checkins
      = (sync_new_checkins o.checkinResp src.checkins cutC d.checkins).table := by
  rw [mainCycle_dest]
  split <;> rfl

theorem mainCycle_dest_visit_responses (o : SyncOracles) (src : SourceDB) (cutC cutR : Nat)
    (d : DestDB) : (mainCycle o src cutC cutR d).dest.visit_responses
      = (sync_new_visit_responses o.vrResp src.visit_responses cutR d.visit_responses).table := by
  rw [mainCycle_dest]
  split <;> rfl

theorem mainCycle_dest_shops (o : SyncOracles) (src : SourceDB) (cutC cutR : Nat)
    (d : DestDB) : (mainCycle o src cutC cutR d).dest.shops
      = (sync_new_shops o.shopResp src.shops
          { success := o.shopReadOk, result := [d.shops.map (fun p => p.1)] } d.shops).table := by
  rw [mainCycle_dest]
  split <;> rfl

theorem mainCycle_dest_derived_of_rebuilt (o : SyncOracles) (src : SourceDB)
    (cutC cutR : Nat) (d : DestDB) (hb : (mainCycle o src cutC cutR d).rebuilt = true) :
    (mainCycle o src cutC cutR d).dest.agent_performance
        = agentPerfRows src.checkins src.users src.visit_responses ∧
    (mainCycle o src cutC cutR d).dest.checkins_by_hour = hourlyRows src.checkins ∧
    (mainCycle o src cutC cutR d).dest.checkins_by_day = dailyRows src.checkins := by
  rw [mainCycle_rebuilt] at hb
  rw [mainCycle_dest, if_pos hb]
  exact ⟨rfl, rfl, rfl⟩

theorem getLast?_cons_getD {β : Type} (x : β) (l : List β) (a : β) :
    ((x :: l).getLast?).getD a = (l.getLast?).getD x := by
  induction l generalizing x with
  | nil => rfl
  | cons y ys ih =>
    rw [List.getLast?_cons_cons]
    cases h : (y :: ys).getLast? with
    | none => exact absurd h (by simp)
    | some z => rfl

/-- The overwrite fold of `existingShopIds`: the result is the last
non-empty element, or the start value when there is none. -/
theorem foldl_overwrite (l : List (List Int)) (a : List Int) :
    l.foldl (fun acc ids => if ids.isEmpty then acc else ids) a
      = ((l.filter (fun ids => !ids.isEmpty)).getLast?).getD a := by
  induction l generalizing a with
  | nil => rfl
  | cons x xs ih =>
    by_cases hx : x.isEmpty
    · have hnx : (!x.isEmpty) = false := by simp [hx]
      rw [List.foldl_cons, if_pos hx, ih, List.filter_cons, hnx]
      simp
    · have hnx : (!x.isEmpty) = true := by simp [hx]
      rw [List.foldl_cons, if_neg hx, ih, List.filter_cons, hnx]
      rw [if_pos rfl, getLast?_cons_getD]

/-! ## Claims -/

/-- **C9** (confirmed).  If photo optimization raises, `optimize_photo`
returns the original bytes unchanged, and `upload_to_r2` proceeds with
those original bytes: its outcome is exactly the success of the upload
command on the original bytes, so an optimization failure by itself never
skips the row or makes it an error. -/
theorem c9_optimize_failure_falls_back (env : PhotoEnv) (cid : Int) (b : List Nat)
    (e : String) (h : env.pil b = .error e) :
    optimize_photo env b = b ∧
    upload_to_r2 env cid b true = (env.runPut cid b == 0) := by
  constructor
  · simp [optimize_photo, h]
  · simp [upload_to_r2, optimize_photo, h]

def photoEnvW : PhotoEnv :=
  { pil := fun _ => .error "broken image", runPut := fun _ _ => 0 }

theorem c9_witness :
    optimize_photo photoEnvW [1, 2, 3] = [1, 2, 3] ∧
    upload_to_r2 photoEnvW 7 [1, 2, 3] true = (photoEnvW.runPut 7 [1, 2, 3] == 0) :=
  c9_optimize_failure_falls_back photoEnvW 7 [1, 2, 3] "broken image" rfl

/-- **C10** (confirmed).  (1) A failed or empty read of existing shop ids
yields the empty identifier set; (2) in that case (read reports failure)
every source shop is upserted — the final table deletes nothing it keeps
(no source id is "already present") and appends every source shop — and
all are counted when the upserts succeed; (3) on a successful non-empty
read, the identifier set is the `results` list of the *last* result object
with a non-empty `results` list (overwrite, not union), or empty if there
is none. -/
theorem c10_shop_read_fallback :
    (∀ read : D1ShopsRead, (read.success = false ∨ read.result = []) →
        existingShopIds read = []) ∧
    (∀ (resp : Shop → D1Response) (src : List Shop) (read : D1ShopsRead)
        (dest : List (Int × Shop)),
        read.success = false → (∀ s, (resp s).success = true) →
        (src.map (fun s => s.id)).Nodup →
        (sync_new_shops resp src read dest).table
            = dest.filter (fun p => decide (p.1 ∉ src.map (fun s => s.id)))
                ++ src.map (fun s => (s.id, s)) ∧
        (sync_new_shops resp src read dest).count = src.length) ∧
    (∀ (ok : Bool) (res : List (List Int)),
        existingShopIds { success := ok, result := res }
          = if ok && !res.isEmpty
            then ((res.filter (fun ids => !ids.isEmpty)).getLast?).getD []
            else []) := by
  have hempty : ∀ read : D1ShopsRead, (read.success = false ∨ read.result = []) →
      existingShopIds read = [] := by
    intro read h
    unfold existingShopIds
    rcases h with h | h
    · rw [h]
      simp
    · rw [h]
      simp
  refine ⟨hempty, ?_, ?_⟩
  · intro resp src read dest hfail hok hnodup
    have hex : existingShopIds read = [] := hempty read (Or.inl hfail)
    have hall : src.filter (fun s => !((existingShopIds read).contains s.id)) = src := by
      rw [hex]
      apply List.filter_eq_self.mpr
      intro s _
      rfl
    constructor
    · rw [sync_new_shops_eq_loop, runUpsertLoop_table, hall,
        List.filter_eq_self.mpr (fun s _ => hok s),
        upsertAll_eq_filter_append _ _ _ _ hnodup]
    · rw [sync_new_shops_eq_loop, runUpsertLoop_count, hall,
        List.filter_eq_self.mpr (fun s _ => hok s)]
      simp
  · intro ok res
    unfold existingShopIds
    by_cases h : (ok && !res.isEmpty) = true
    · rw [if_pos h]
      simp only [h, if_pos rfl]
      exact foldl_overwrite res []
    · rw [if_neg h]
      simp only [h]
      simp

def shopW4 : Shop := { id := 4, name := some "new", address := none, latitude := 1, longitude := 2 }
def okResp : D1Response := { success := true, body := "ok" }
def failResp : D1Response := { success := false, body := "boom" }

theorem c10_witness :
    existingShopIds { success := false, result := [[5]] } = [] ∧
    (sync_new_shops (fun _ => okResp) [shopW4] { success := false, result := [[5]] } []).count = 1 ∧
    existingShopIds { success := true, result := [[1], [2, 3], []] } = [2, 3] := by
  refine ⟨c10_shop_read_fallback.1 _ (Or.inl rfl), ?_, ?_⟩
  · exact (c10_shop_read_fallback.2.1 (fun _ => okResp) [shopW4]
      { success := false, result := [[5]] } [] rfl (fun _ => rfl) (by decide)).2
  · rw [c10_shop_read_fallback.2.2 true [[1], [2, 3], []]]
    decide

/-- **C5** (corrected).  The counterexample to the claim as stated: in the
*shop* sync a call reporting `success = false` is **not** logged — the
failure log stays empty even though the row was omitted from the count. -/
theorem c5_counterexample :
    failResp.success = false ∧
    (sync_new_shops (fun _ => failResp) [shopW4] { success := true, result := [[]] } []).count = 0 ∧
    (sync_new_shops (fun _ => failResp) [shopW4] { success := true, result := [[]] } []).logged = [] := by
  refine ⟨rfl, rfl, rfl⟩

/-- **C5** (amended).  For all three entity syncs a `success = false` call
never aborts the loop and the returned count is exactly the number of
calls reporting `success = true`; the check-in and visit-response loops
log each failed row's identifier with the raw failure response, but the
shop loop logs nothing on failure. -/
theorem c5_amended :
    (∀ (resp : Checkin → D1Response) (src : List Checkin) (cutoff : Nat)
        (dest : List (Int × Checkin)),
        (sync_new_checkins resp src cutoff dest).count
          = ((src.filter (fun c => decide (cutoff ≤ c.timestamp))).filter
              (fun c => (resp c).success)).length ∧
        (sync_new_checkins resp src cutoff dest).logged
          = ((src.filter (fun c => decide (cutoff ≤ c.timestamp))).filter
              (fun c => !(resp c).success)).map (fun c => (c.id, resp c))) ∧
    (∀ (resp : VisitResponse → D1Response) (src : List VisitResponse) (cutoff : Nat)
        (dest : List (Int × VisitResponseRow)),
        (sync_new_visit_responses resp src cutoff dest).count
          = ((src.filter (fun v => decide (cutoff ≤ v.created_at))).filter
              (fun v => (resp v).success)).length ∧
        (sync_new_visit_responses resp src cutoff dest).logged
          = ((src.filter (fun v => decide (cutoff ≤ v.created_at))).filter
              (fun v => !(resp v).success)).map (fun v => (v.id, resp v))) ∧
    (∀ (resp : Shop → D1Response) (src : List Shop) (read : D1ShopsRead)
        (dest : List (Int × Shop)),
        (sync_new_shops resp src read dest).count
          = ((src.filter (fun s => !((existingShopIds read).contains s.id))).filter
              (fun s => (resp s).success)).length ∧
        (sync_new_shops resp src read dest).logged = []) := by
  refine ⟨?_, ?_, ?_⟩
  · intro resp src cutoff dest
    rw [sync_new_checkins_eq_loop]
    rw [runUpsertLoop_count, runUpsertLoop_logged_log]
    simp
  · intro resp src cutoff dest
    rw [sync_new_visit_responses_eq_loop]
    rw [runUpsertLoop_count, runUpsertLoop_logged_log]
    simp
  · intro resp src read dest
    rw [sync_new_shops_eq_loop]
    rw [runUpsertLoop_count, runUpsertLoop_logged_nolog]
    simp

def geoCheckin (i : Int) (lat lng : Rat) : Checkin :=
  { id := i, agent_id := 1, shop_id := 1, timestamp := 0, latitude := lat, longitude := lng,
    photo_path := none, notes := none, status := none, brand_id := none,
    category_id := none, product_id := none }

def c3Checkins : List Checkin :=
  [geoCheckin 1 0 25, geoCheckin 2 0 25, geoCheckin 3 0 25, geoCheckin 4 5 5]

/-- **C3** (corrected).  The counterexample to the claim as stated: the
pair (0, 25) — not the origin — has the highest raw count (3 of 4
check-ins) yet is excluded from the hotspot ranking, because the filter
drops every row with *either* coordinate zero. -/
theorem c3_counterexample :
    ((0 : Rat), (25 : Rat)) ≠ ((0 : Rat), (0 : Rat)) ∧
    (c3Checkins.filter (fun c => c.latitude == 0 && c.longitude == 25)).length = 3 ∧
    geoHotspotRows c3Checkins = [(((5 : Rat), (5 : Rat)), 1)] ∧
    ((0 : Rat), (25 : Rat)) ∉ (geoHotspotRows c3Checkins).map (fun q => q.1) := by
  refine ⟨by decide, by decide, by decide, by decide⟩

/-- **C3** (amended).  A coordinate pair is eligible for the hotspot
ranking iff it occurs in the check-ins and *both* of its coordinates are
nonzero (so every pair with latitude 0 or longitude 0 is excluded, not
only the origin); every ranked pair is drawn from the eligible pairs. -/
theorem c3_amended (cs : List Checkin) (p : Rat × Rat) :
    (p ∈ geoPoints cs ↔
      (p.1 ≠ 0 ∧ p.2 ≠ 0 ∧ ∃ c ∈ cs, c.latitude = p.1 ∧ c.longitude = p.2)) ∧
    (∀ q ∈ geoHotspotRows cs, q.1 ∈ geoPoints cs) := by
  constructor
  · unfold geoPoints geoEligible
    rw [List.mem_dedup]
    simp only [List.mem_map, List.mem_filter, Bool.and_eq_true, bne_iff_ne]
    constructor
    · rintro ⟨c, ⟨hc, h1, h2⟩, hp⟩
      subst hp
      exact ⟨h1, h2, c, hc, rfl, rfl⟩
    · rintro ⟨h1, h2, c, hc, hlat, hlng⟩
      refine ⟨c, ⟨hc, ?_, ?_⟩, ?_⟩
      · rw [hlat]; exact h1
      · rw [hlng]; exact h2
      · rw [hlat, hlng]
  · intro q hq
    unfold geoHotspotRows at hq
    have hq' := List.take_subset _ _ hq
    have hperm := List.perm_insertionSort
      (fun (a b : (Rat × Rat) × Nat) => b.2 ≤ a.2)
      ((geoPoints cs).map (fun p =>
        (p, ((geoEligible cs).filter
          (fun c => c.latitude == p.1 && c.longitude == p.2)).length)))
    have hmem := hperm.mem_iff.mp hq'
    simp only [List.mem_map] at hmem
    obtain ⟨r, hr, rfl⟩ := hmem
    exact hr

theorem c3_amended_witness :
    ((5 : Rat), (5 : Rat)) ∈ geoPoints c3Checkins ∧
    ((0 : Rat), (25 : Rat)) ∉ geoPoints c3Checkins :=
  ⟨(c3_amended c3Checkins ((5 : Rat), (5 : Rat))).1.mpr
      ⟨by decide, by decide, geoCheckin 4 5 5, by decide, rfl, rfl⟩,
    fun h => by
      have := (c3_amended c3Checkins ((0 : Rat), (25 : Rat))).1.mp h
      exact absurd this.1 (by decide)⟩

/-- A valid payload whose `conversion.converted` is `'yes'` but whose
`bettingInfo` value is a string: `data.get('bettingInfo', {}).get(...)`
raises `AttributeError`, and the shared `except:` resets *both* flags. -/
def c1Payload : String :=
  "\x7b\"conversion\":\x7b\"converted\":\"yes\"\x7d,\"bettingInfo\":\"x\"\x7d"

/-- **C1** (corrected).  The counterexample to the claim as stated: a
payload that *is* valid JSON and whose `conversion.converted` *is* the
string `'yes'`, yet whose stored `converted` flag is 0 (the `bettingInfo`
lookup raises inside the same `try`, zeroing both flags). -/
theorem c1_counterexample :
    (json_loads c1Payload).isSome = true ∧
    specConvertedFlag c1Payload = 1 ∧
    deriveFlags c1Payload = (0, 0) :=
  ⟨by decide, by decide, by decide⟩

/-- **C1** (amended).  The stored flag pair equals the spec's two nested
lookups exactly when the whole flag computation raises no error (the
payload parses, is an object, and the `conversion` and `bettingInfo`
values are objects whenever the corresponding inner lookup is reached);
on any error both flags are 0.  In every case the row is still upserted
(with whatever flags were derived), never dropped: a successfully
upserted candidate row appears in the destination table. -/
theorem c1_flag_derivation :
    (∀ s : String,
      deriveFlags s
        = if (computeFlags s).isOk then (specConvertedFlag s, specBettingFlag s)
          else (0, 0)) ∧
    (∀ (resp : VisitResponse → D1Response) (src : List VisitResponse) (cutoff : Nat)
        (dest : List (Int × VisitResponseRow)) (v : VisitResponse),
        (∀ w, (resp w).success = true) →
        ((src.filter (fun w => decide (cutoff ≤ w.created_at))).map
          (fun w => w.id)).Nodup →
        v ∈ src.filter (fun w => decide (cutoff ≤ w.created_at)) →
        (v.id, mkVisitResponseRow v)
          ∈ (sync_new_visit_responses resp src cutoff dest).table) := by
  constructor
  · intro s
    unfold deriveFlags computeFlags specConvertedFlag specBettingFlag
    cases hj : json_loads s with
    | none => simp [Except.isOk, Except.toBool]
    | some data =>
      cases data with
      | obj kvs =>
        cases hc : jsonObjGetD kvs "conversion" (Json.obj []) <;>
          cases hb : jsonObjGetD kvs "bettingInfo" (Json.obj []) <;>
            simp [pyGetD, hc, hb, Except.isOk, Except.toBool]
      | null => simp [pyGetD, Except.isOk, Except.toBool]
      | bool b => simp [pyGetD, Except.isOk, Except.toBool]
      | num n => simp [pyGetD, Except.isOk, Except.toBool]
      | str t => simp [pyGetD, Except.isOk, Except.toBool]
      | arr xs => simp [pyGetD, Except.isOk, Except.toBool]
  · intro resp src cutoff dest v hok hnodup hv
    rw [sync_new_visit_responses_eq_loop, runUpsertLoop_table,
      List.filter_eq_self.mpr (fun w _ => hok w),
      upsertAll_eq_filter_append _ _ _ _ hnodup]
    apply List.mem_append_right
    exact List.mem_map.mpr ⟨v, hv, rfl⟩

/-- A truncated, non-JSON payload. -/
def c1BadPayload : String := "\x7b\"conversion\":"

def vrW : VisitResponse :=
  { id := 11, checkin_id := 1, visit_type := none, responses := c1BadPayload, created_at := 5 }

theorem c1_witness :
    deriveFlags c1BadPayload = (0, 0) ∧
    (11, mkVisitResponseRow vrW)
      ∈ (sync_new_visit_responses (fun _ => okResp) [vrW] 0 []).table := by
  constructor
  · rw [c1_flag_derivation.1 c1BadPayload]
    decide
  · exact c1_flag_derivation.2 (fun _ => okResp) [vrW] 0 [] vrW
      (fun _ => rfl) (by decide) (by decide)

/-- A valid payload that the JSON-parse rule counts as a conversion but
the aggregation's `LIKE` substring patterns miss (a space *before* the
colon of `"converted"`). -/
def c2Payload : String := "\x7b\"conversion\": \x7b\"converted\" : \"yes\"\x7d\x7d"

def plainCheckin (i a : Int) : Checkin :=
  { id := i, agent_id := a, shop_id := 1, timestamp := 0, latitude := 0, longitude := 0,
    photo_path := none, notes := none, status := none, brand_id := none,
    category_id := none, product_id := none }

def c2Checkins : List Checkin := [plainCheckin 1 7]

def c2Responses : List VisitResponse :=
  [{ id := 1, checkin_id := 1, visit_type := none, responses := c2Payload, created_at := 0 }]

/-- **C2** (corrected).  The counterexample to the claim as stated: agent
7 has one check-in whose response's derived `converted` flag is 1, yet the
agent-performance table built from the same source credits the agent 0
conversions, because the aggregate counts `LIKE`-substring matches, not
the JSON-parse flag. -/
theorem c2_counterexample :
    deriveFlags c2Payload = (1, 0) ∧
    specAgentConversions c2Checkins c2Responses 7 = 1 ∧
    (agentPerfRows c2Checkins [] c2Responses).map (fun r => (r.agent_id, r.conversions))
      = [(7, 0)] :=
  ⟨by decide, by decide, by decide⟩

/-- **C2** (amended).  The per-agent conversion count written into the
agent-performance table equals `convCount`: the number of the agent's
(check-in, visit-response) join pairs whose *raw payload string* contains
the substring `"converted": "yes"` or `"converted":"yes"` — the `LIKE`
rule, which agrees with the per-row JSON-parse flag only on payloads
formatted exactly that way. -/
theorem c2_amended (cs : List Checkin) (users : List User) (vrs : List VisitResponse)
    (r : AgentPerfRow) (hr : r ∈ agentPerfRows cs users vrs) :
    r.conversions = convCount cs vrs r.agent_id := by
  unfold agentPerfRows at hr
  simp only [List.mem_map] at hr
  obtain ⟨k, hk, rfl⟩ := hr
  rfl

def c2PerfRow : AgentPerfRow :=
  { agent_id := 7, agent_name := none, checkin_count := 1, conversions := 0,
    conversion_rate := 0 }

theorem c2_amended_witness :
    c2PerfRow ∈ agentPerfRows c2Checkins [] c2Responses ∧
    c2PerfRow.conversions = convCount c2Checkins c2Responses 7 := by
  have hmem : c2PerfRow ∈ agentPerfRows c2Checkins [] c2Responses := by decide
  exact ⟨hmem, c2_amended c2Checkins [] c2Responses _ hmem⟩

/-- **C7** (confirmed).  With a successful read of the destination's shop
identifiers, the shop sync appends exactly the source shops whose id is
not yet in the destination — every pre-existing destination row is left
literally in place — and counts exactly those new shops when the upserts
succeed. -/
theorem c7_shop_sync_inserts_exactly_new (resp : Shop → D1Response) (src : List Shop)
    (dest : List (Int × Shop)) (hok : ∀ s, (resp s).success = true)
    (hsrc : (src.map (fun s => s.id)).Nodup) :
    (sync_new_shops resp src { success := true, result := [dest.map (fun p => p.1)] }
        dest).table
      = dest ++ (src.filter
          (fun s => !((dest.map (fun p => p.1)).contains s.id))).map (fun s => (s.id, s)) ∧
    (sync_new_shops resp src { success := true, result := [dest.map (fun p => p.1)] }
        dest).count
      = (src.filter (fun s => !((dest.map (fun p => p.1)).contains s.id))).length := by
  constructor
  · exact sync_new_shops_table_ok resp src dest hok hsrc
  · rw [sync_new_shops_count, existingShopIds_single,
      List.filter_eq_self.mpr (fun s _ => hok s)]

def shopN (i : Int) : Shop :=
  { id := i, name := some "shop", address := none, latitude := 1, longitude := 1 }

def c7Dest : List (Int × Shop) := [(1, shopN 1), (2, shopN 2), (3, shopN 3)]

def c7Src : List Shop := [shopN 1, shopN 2, shopN 3, shopN 4]

theorem c7_witness :
    (sync_new_shops (fun _ => okResp) c7Src
        { success := true, result := [c7Dest.map (fun p => p.1)] } c7Dest).table
      = c7Dest ++ [(4, shopN 4)] ∧
    (sync_new_shops (fun _ => okResp) c7Src
        { success := true, result := [c7Dest.map (fun p => p.1)] } c7Dest).count = 1 := by
  have h := c7_shop_sync_inserts_exactly_new (fun _ => okResp) c7Src c7Dest
    (fun _ => rfl) (by decide)
  exact ⟨h.1.trans (by decide), h.2.trans (by decide)⟩

/-- **C6** (confirmed).  The aggregate rebuild runs iff the cycle synced at
least one check-in or at least one visit response; when it does not run
(in particular in a shops-only cycle), all three derived destination
tables are left untouched. -/
theorem c6_rebuild_iff (o : SyncOracles) (src : SourceDB) (cutC cutR : Nat) (d : DestDB) :
    ((mainCycle o src cutC cutR d).rebuilt = true ↔
      0 < (mainCycle o src cutC cutR d).checkinsCount ∨
      0 < (mainCycle o src cutC cutR d).responsesCount) ∧
    ((mainCycle o src cutC cutR d).rebuilt = false →
      (mainCycle o src cutC cutR d).dest.agent_performance = d.agent_performance ∧
      (mainCycle o src cutC cutR d).dest.checkins_by_hour = d.checkins_by_hour ∧
      (mainCycle o src cutC cutR d).dest.checkins_by_day = d.checkins_by_day) := by
  constructor
  · rw [mainCycle_rebuilt, mainCycle_checkinsCount, mainCycle_responsesCount]
    simp
  · intro h
    rw [mainCycle_rebuilt] at h
    rw [mainCycle_dest, h]
    simp

def shopsOnlySource : SourceDB :=
  { checkins := [], visit_responses := [], shops := [shopN 8], users := [] }

def allOkOracles : SyncOracles :=
  { checkinResp := fun _ => okResp, vrResp := fun _ => okResp,
    shopResp := fun _ => okResp, shopReadOk := true }

def emptyDest : DestDB :=
  { checkins := [], visit_responses := [], shops := [],
    agent_performance := [], checkins_by_hour := [], checkins_by_day := [] }

theorem c6_witness :
    (mainCycle allOkOracles shopsOnlySource 0 0 emptyDest).shopsCount = 1 ∧
    (mainCycle allOkOracles shopsOnlySource 0 0 emptyDest).rebuilt = false ∧
    (mainCycle allOkOracles shopsOnlySource 0 0 emptyDest).dest.agent_performance
      = emptyDest.agent_performance := by
  refine ⟨by decide, by decide, ?_⟩
  exact ((c6_rebuild_iff allOkOracles shopsOnlySource 0 0 emptyDest).2 (by decide)).1

/-- `u.name` of the unique user with a given id, when there is one. -/
def userNameFor (users : List User) (a : Int) : Option String :=
  (users.find? (fun u => u.id == a)).map (fun u => u.name)

theorem filter_eq_find_toList (users : List User) (a : Int)
    (h : (users.map (fun u => u.id)).Nodup) :
    users.filter (fun u => u.id == a) = (users.find? (fun u => u.id == a)).toList := by
  induction users with
  | nil => rfl
  | cons u us ih =>
    simp only [List.map_cons, List.nodup_cons] at h
    by_cases hb : (u.id == a) = true
    · rw [List.filter_cons, List.find?_cons]
      rw [hb]
      have hnil : us.filter (fun u => u.id == a) = [] := by
        rw [List.filter_eq_nil_iff]
        intro v hv hva
        apply h.1
        have hva' : v.id = a := by
          simpa using hva
        have hua : u.id = a := by
          simpa using hb
        rw [List.mem_map]
        exact ⟨v, hv, by rw [hva', hua]⟩
      simp [hnil]
    · rw [Bool.not_eq_true] at hb
      simp [List.filter_cons, List.find?_cons, hb, ih h.2]

theorem joinRows_eq_map (cs : List Checkin) (users : List User)
    (h : (users.map (fun u => u.id)).Nodup) :
    joinRows cs users = cs.map (fun c => (c, userNameFor users c.agent_id)) := by
  induction cs with
  | nil => rfl
  | cons c cs' ih =>
    have hstep : joinRows (c :: cs') users
        = (match users.filter (fun u => u.id == c.agent_id) with
            | [] => [(c, none)]
            | us => us.map (fun u => (c, some u.name))) ++ joinRows cs' users := by
      simp [joinRows]
    rw [hstep, filter_eq_find_toList users c.agent_id h, ih, List.map_cons]
    cases hf : users.find? (fun u => u.id == c.agent_id) with
    | none => simp [userNameFor, hf]
    | some u => simp [userNameFor, hf]

theorem conversionRate_zero (cnt : Nat) : conversionRate 0 cnt = 0 := by
  unfold conversionRate roundHalfEvenDiv
  simp only [Nat.zero_mul]
  by_cases h : cnt = 0
  · rw [if_pos h]
    decide
  · rw [if_neg h]
    have h0 : (0 : Nat) / cnt = 0 := Nat.zero_div cnt
    have h1 : (0 : Nat) % cnt = 0 := Nat.zero_mod cnt
    rw [h0, h1]
    have h2 : 2 * 0 < cnt := by
      simpa using Nat.pos_of_ne_zero h
    rw [if_pos h2]
    decide

/-- **C8** (confirmed).  Every agent appearing in the check-ins table gets
a row in the agent-performance computation (when user ids are unique, so
the left join duplicates no check-in): its check-in count is the agent's
number of check-ins, its conversions are the `LIKE`-matched pair count
(0 when no response matches, via the left-merge fill), and its rate is
`round(conversions / checkin_count * 100, 2)` — in particular `0` (not an
omitted row) for an agent with check-ins and no matched conversions. -/
theorem c8_agent_performance_row (cs : List Checkin) (users : List User)
    (vrs : List VisitResponse) (a : Int)
    (ha : a ∈ cs.map (fun c => c.agent_id))
    (hu : (users.map (fun u => u.id)).Nodup) :
    ∃ r ∈ agentPerfRows cs users vrs,
      r.agent_id = a ∧
      r.checkin_count = (cs.filter (fun c => c.agent_id == a)).length ∧
      r.conversions = convCount cs vrs a ∧
      r.conversion_rate = conversionRate (convCount cs vrs a) r.checkin_count ∧
      (convCount cs vrs a = 0 → r.conversions = 0 ∧ r.conversion_rate = 0) := by
  obtain ⟨c₀, hc₀, rfl⟩ := List.mem_map.mp ha
  unfold agentPerfRows
  rw [joinRows_eq_map cs users hu]
  have hkey : (c₀.agent_id, userNameFor users c₀.agent_id)
      ∈ ((cs.map (fun c => (c, userNameFor users c.agent_id))).map
          (fun rc => (rc.1.agent_id, rc.2))).dedup := by
    rw [List.mem_dedup, List.map_map]
    exact List.mem_map.mpr ⟨c₀, hc₀, rfl⟩
  refine ⟨_, List.mem_map.mpr ⟨(c₀.agent_id, userNameFor users c₀.agent_id), hkey, rfl⟩,
    rfl, ?_, rfl, rfl, ?_⟩
  · show ((cs.map (fun c => (c, userNameFor users c.agent_id))).filter
        (fun rc => rc.1.agent_id == c₀.agent_id
          && rc.2 == userNameFor users c₀.agent_id)).length
      = (cs.filter (fun c => c.agent_id == c₀.agent_id)).length
    rw [← List.countP_eq_length_filter, ← List.countP_eq_length_filter, List.countP_map]
    apply List.countP_congr
    intro c _
    simp only [Function.comp_apply]
    have hbe : (c.agent_id == c₀.agent_id
        && userNameFor users c.agent_id == userNameFor users c₀.agent_id)
      = (c.agent_id == c₀.agent_id) := by
      by_cases hb : c.agent_id = c₀.agent_id
      · rw [hb]
        simp
      · have hf : (c.agent_id == c₀.agent_id) = false := by
          simpa using hb
        rw [hf]
        simp
    rw [hbe]
  · intro h0
    constructor
    · exact h0
    · show conversionRate (convCount cs vrs c₀.agent_id) _ = 0
      rw [h0, conversionRate_zero]

def c8Checkins : List Checkin := [plainCheckin 21 9]

theorem c8_witness :
    9 ∈ c8Checkins.map (fun c => c.agent_id) ∧
    ∃ r ∈ agentPerfRows c8Checkins [] [],
      r.agent_id = 9 ∧
      r.checkin_count = (c8Checkins.filter (fun c => c.agent_id == 9)).length ∧
      r.conversions = convCount c8Checkins [] 9 ∧
      r.conversion_rate = conversionRate (convCount c8Checkins [] 9) r.checkin_count ∧
      (convCount c8Checkins [] 9 = 0 → r.conversions = 0 ∧ r.conversion_rate = 0) :=
  ⟨by decide, c8_agent_performance_row c8Checkins [] [] 9 (by decide) (by decide)⟩

/-- **C4** (confirmed).  With the same source snapshot and cutoffs, no
remote failures, and distinct primary identifiers in each candidate batch
(a primary-key invariant of the source), running the sync cycle twice
gives the same destination state as running it once: every per-row write
is an insert-or-replace keyed by primary identifier, the second shop sync
finds every source shop already mirrored, and the aggregate rebuild is a
pure function of the source. -/
theorem c4_sync_cycle_idempotent
    (o : SyncOracles) (src : SourceDB) (cutC cutR : Nat) (d : DestDB)
    (hC : ((src.checkins.filter (fun c => decide (cutC ≤ c.timestamp))).map
        (fun c => c.id)).Nodup)
    (hR : ((src.visit_responses.filter (fun v => decide (cutR ≤ v.created_at))).map
        (fun v => v.id)).Nodup)
    (hS : (src.shops.map (fun s => s.id)).Nodup)
    (hkC : ∀ c, (o.checkinResp c).success = true)
    (hkR : ∀ v, (o.vrResp v).success = true)
    (hkS : ∀ s, (o.shopResp s).success = true)
    (hread : o.shopReadOk = true) :
    (mainCycle o src cutC cutR (mainCycle o src cutC cutR d).dest).dest
      = (mainCycle o src cutC cutR d).dest := by
  have hck1 : (mainCycle o src cutC cutR d).dest.checkins
      = upsertAll (fun c => c.id) (fun c => c)
          (src.checkins.filter (fun c => decide (cutC ≤ c.timestamp))) d.checkins := by
    rw [mainCycle_dest_checkins, sync_new_checkins_table_ok _ _ _ _ hkC]
  have hvr1 : (mainCycle o src cutC cutR d).dest.visit_responses
      = upsertAll (fun v => v.id) mkVisitResponseRow
          (src.visit_responses.filter (fun v => decide (cutR ≤ v.created_at)))
          d.visit_responses := by
    rw [mainCycle_dest_visit_responses, sync_new_visit_responses_table_ok _ _ _ _ hkR]
  have hsh1 : (mainCycle o src cutC cutR d).dest.shops
      = d.shops ++ (src.shops.filter
          (fun s => !((d.shops.map (fun p => p.1)).contains s.id))).map
            (fun s => (s.id, s)) := by
    rw [mainCycle_dest_shops, hread, sync_new_shops_table_ok _ _ _ hkS hS]
  have hck2 : (sync_new_checkins o.checkinResp src.checkins cutC
      (mainCycle o src cutC cutR d).dest.checkins).table
      = (mainCycle o src cutC cutR d).dest.checkins := by
    rw [sync_new_checkins_table_ok _ _ _ _ hkC, hck1, upsertAll_idem _ _ _ _ hC]
  have hvr2 : (sync_new_visit_responses o.vrResp src.visit_responses cutR
      (mainCycle o src cutC cutR d).dest.visit_responses).table
      = (mainCycle o src cutC cutR d).dest.visit_responses := by
    rw [sync_new_visit_responses_table_ok _ _ _ _ hkR, hvr1, upsertAll_idem _ _ _ _ hR]
  have hshmem : ∀ s ∈ src.shops,
      s.id ∈ (mainCycle o src cutC cutR d).dest.shops.map (fun p => p.1) := by
    intro s hs
    rw [hsh1, List.map_append]
    by_cases hc : s.id ∈ d.shops.map (fun p => p.1)
    · exact List.mem_append_left _ hc
    · apply List.mem_append_right
      simp only [List.map_map]
      refine List.mem_map.mpr ⟨s, ?_, rfl⟩
      refine List.mem_filter.mpr ⟨hs, ?_⟩
      simp [List.contains, List.elem_eq_mem, hc]
  have hnew2 : src.shops.filter (fun s =>
      !((existingShopIds (D1ShopsRead.mk true
          [(mainCycle o src cutC cutR d).dest.shops.map (fun p => p.1)])).contains
        s.id)) = [] := by
    rw [existingShopIds_single, List.filter_eq_nil_iff]
    intro s hs
    simp [List.contains, List.elem_eq_mem, hshmem s hs]
  have hsh2 : (sync_new_shops o.shopResp src.shops
      (D1ShopsRead.mk o.shopReadOk
        [(mainCycle o src cutC cutR d).dest.shops.map (fun p => p.1)])
      (mainCycle o src cutC cutR d).dest.shops).table
      = (mainCycle o src cutC cutR d).dest.shops := by
    rw [hread, sync_new_shops_eq_loop, hnew2]
    rfl
  have hcntC : ∀ t, (sync_new_checkins o.checkinResp src.checkins cutC t).count
      = (src.checkins.filter (fun c => decide (cutC ≤ c.timestamp))).length := by
    intro t
    rw [sync_new_checkins_count, List.filter_eq_self.mpr (fun c _ => hkC c)]
  have hcntR : ∀ t, (sync_new_visit_responses o.vrResp src.visit_responses cutR t).count
      = (src.visit_responses.filter (fun v => decide (cutR ≤ v.created_at))).length := by
    intro t
    rw [sync_new_visit_responses_count, List.filter_eq_self.mpr (fun v _ => hkR v)]
  rw [mainCycle_dest o src cutC cutR (mainCycle o src cutC cutR d).dest]
  rw [hck2, hvr2, hsh2]
  have hcond : (decide (0 < (sync_new_checkins o.checkinResp src.checkins cutC
        (mainCycle o src cutC cutR d).dest.checkins).count)
      || decide (0 < (sync_new_visit_responses o.vrResp src.visit_responses cutR
        (mainCycle o src cutC cutR d).dest.visit_responses).count))
      = (mainCycle o src cutC cutR d).rebuilt := by
    rw [mainCycle_rebuilt]
    simp only [hcntC, hcntR]
  rw [hcond]
  cases hb : (mainCycle o src cutC cutR d).rebuilt with
  | false =>
    rw [if_neg (by simp)]
  | true =>
    rw [if_pos rfl]
    obtain ⟨hA, hH, hD⟩ := mainCycle_dest_derived_of_rebuilt o src cutC cutR d hb
    simp only [update_aggregates]
    rw [← hA, ← hH, ← hD]
def vr41 : VisitResponse :=
  { id := 41, checkin_id := 31, visit_type := none, responses := "\x7b\x7d", created_at := 3 }

def c4Source : SourceDB :=
  { checkins := [plainCheckin 31 2], visit_responses := [vr41],
    shops := [shopN 51], users := [] }

theorem c4_witness :
    (mainCycle allOkOracles c4Source 0 0
        (mainCycle allOkOracles c4Source 0 0 emptyDest).dest).dest
      = (mainCycle allOkOracles c4Source 0 0 emptyDest).dest :=
  c4_sync_cycle_idempotent allOkOracles c4Source 0 0 emptyDest
    (by simp [c4Source]) (by simp [c4Source]) (by simp [c4Source])
    (fun _ => rfl) (fun _ => rfl) (fun _ => rfl) rfl
